import Mathlib

/-!
Verification of the MAEC 5.0 Rust library (`maec-rs`) against its
natural-language specification.

The Rust source is shallowly embedded: Rust `String`/`&str` values are
modelled as `List Char`, `chrono::DateTime<Utc>` as `Nat` (with its wire
form as a JSON number standing in for the RFC-3339 string, which the spec
treats as a faithful external codec), JSON documents as an inductive
`Json` type with objects as ordered association lists,
`HashMap<String, _>` as an ordered association list,
`Result<T, MaecError>` as `Except MaecError T`, and `serde` encoding and
decoding as explicit functions that mirror the derive attributes on each
struct (`flatten`, `default`, `skip_serializing_if`, `untagged`).

Non-deterministic external inputs (the freshly drawn UUID of
`generate_maec_id` and the `Utc::now()` clock reading) are passed to the
embedded functions as explicit arguments.
-/

namespace Maec

/-- Rust strings (`String` / `&str`) are modelled as lists of characters. -/
abbrev Str := List Char

/-! ## Splitting on the `"--"` separator

`is_valid_maec_id` in `src/common/mod.rs` uses `id.split("--")`.
Rust's `str::split` with a multi-character pattern scans left to right and
splits at each non-overlapping occurrence of the separator.  `splitDDAux`
reproduces that scan for the two-character separator `"--"`. -/

/-- Left-to-right scan of Rust's `split("--")`: `acc` is the chunk
accumulated since the previous separator. -/
def splitDDAux : Str → Str → List Str
  | acc, [] => [acc]
  | acc, [c] => [acc ++ [c]]
  | acc, c1 :: c2 :: rest =>
    if c1 = '-' ∧ c2 = '-' then acc :: splitDDAux [] rest
    else splitDDAux (acc ++ [c1]) (c2 :: rest)

/-- Rust `id.split("--").collect::<Vec<_>>()`. -/
def splitDD (s : Str) : List Str := splitDDAux [] s

/-- Whether `"--"` occurs as a substring. -/
def containsDD : Str → Bool
  | [] => false
  | [_] => false
  | c1 :: c2 :: rest => (c1 = '-' && c2 = '-') || containsDD (c2 :: rest)

/-- Inverse of `splitDD`: interleave the chunks with `"--"`. -/
def joinDD : List Str → Str
  | [] => []
  | [g] => g
  | g :: gs => g ++ '-' :: '-' :: joinDD gs

/-- Hexadecimal digit (either case), as accepted by the `uuid` crate. -/
def isHexDigit (c : Char) : Bool :=
  (decide ('0' ≤ c) && decide (c ≤ '9')) ||
  (decide ('a' ≤ c) && decide (c ≤ 'f')) ||
  (decide ('A' ≤ c) && decide (c ≤ 'F'))

/-- Split on single `'-'` characters (for the five UUID hex groups). -/
def splitDashAux : Str → Str → List Str
  | acc, [] => [acc]
  | acc, c :: rest =>
    if c = '-' then acc :: splitDashAux [] rest
    else splitDashAux (acc ++ [c]) rest

def splitDash (s : Str) : List Str := splitDashAux [] s

/-- A hex group of exactly `n` digits. -/
def hexGroup (n : Nat) (g : Str) : Bool :=
  (g.length == n) && g.all isHexDigit

/-- Modelled from the spec: `Uuid::parse_str(..).is_ok()` of the external
`uuid` crate (the spec: the segment must parse "as any valid UUID
(version-agnostic, any RFC-4122 UUID is accepted)"), restricted to the
RFC-4122 hyphenated textual form `8-4-4-4-12` hex groups, which is the
form rendered by the generator and exercised throughout the repository. -/
def uuidParseOk (u : Str) : Bool :=
  match splitDash u with
  | [a, b, c, d, e] =>
    hexGroup 8 a && hexGroup 4 b && hexGroup 4 c && hexGroup 4 d && hexGroup 12 e
  | _ => false

/-- Join the hex groups back with single dashes. -/
def joinDash : List Str → Str
  | [] => []
  | [g] => g
  | g :: gs => g ++ '-' :: joinDash gs

/-! ## The identifier scheme (`src/common/mod.rs`) -/

/-- `is_valid_maec_id` (src/common/mod.rs:183): split on `"--"`, require
exactly two parts, and require the second to parse as a UUID.  (The Rust
code checks `parts.len() != 2` and then parses `parts[1]`; the match below
performs the same test.) -/
def is_valid_maec_id (id : Str) : Bool :=
  match splitDD id with
  | [_, u] => uuidParseOk u
  | _ => false

/-- `extract_type_from_id` (src/common/mod.rs:206). -/
def extract_type_from_id (id : Str) : Option Str :=
  match splitDD id with
  | [t, u] => if uuidParseOk u then some t else none
  | _ => none

/-- `is_valid_ref_for_type` (src/common/mod.rs:231). -/
def is_valid_ref_for_type (id : Str) (expected_type : Str) : Bool :=
  ((extract_type_from_id id).map (fun t => t == expected_type)).getD false

/-- `generate_maec_id` (src/common/mod.rs:165): `format!("{}--{}", ty, uuid)`.
The freshly drawn UUID is passed in as its rendered string `uuid`. -/
def generate_maec_id (object_type : Str) (uuid : Str) : Str :=
  object_type ++ '-' :: '-' :: uuid

/-! ## JSON documents and errors -/

/-- A JSON value.  Objects are ordered association lists; numbers only
occur in this development as the stand-in wire form of timestamps, so
they are modelled as `Nat`. -/
inductive Json where
  | null : Json
  | bool (b : Bool) : Json
  | num (n : Nat) : Json
  | str (s : Str) : Json
  | arr (elems : List Json) : Json
  | obj (fields : List (Str × Json)) : Json

/-- `MaecError` (src/error.rs), restricted to the variants produced by the
embedded operations (the serde / XML / IO variants carry foreign error
types and are never produced by the code modelled here). -/
inductive MaecError where
  | MissingField (name : Str)
  | InvalidId (id : Str)
  | InvalidReference (id : Str)
  | ValidationError (msg : Str)

/-! ## Common properties (`src/common/mod.rs`) -/

/-- `CommonProperties` (src/common/mod.rs:37).  `custom_properties` is the
`#[serde(flatten)]` extension `HashMap`, modelled as an ordered
association list. -/
structure CommonProperties where
  type : Str
  id : Str
  schema_version : Option Str
  created : Nat
  modified : Nat
  created_by_ref : Option Str
  custom_properties : List (Str × Json)

/-- `CommonProperties::new` (src/common/mod.rs:98); `uuid` is the freshly
drawn UUID and `now` the `Utc::now()` reading. -/
def CommonProperties.new (object_type : Str) (created_by_ref : Option Str)
    (uuid : Str) (now : Nat) : CommonProperties :=
  { type := object_type
    id := generate_maec_id object_type uuid
    schema_version := some ("5.0".toList)
    created := now
    modified := now
    created_by_ref := created_by_ref
    custom_properties := [] }

/-- `CommonProperties::new_version` (src/common/mod.rs:134): sets
`modified = Utc::now()` and touches nothing else. -/
def CommonProperties.new_version (c : CommonProperties) (now : Nat) : CommonProperties :=
  { c with modified := now }

/-- `ExternalReference` (src/common/mod.rs:243). -/
structure ExternalReference where
  source_name : Str
  description : Option Str
  url : Option Str
  external_id : Option Str
deriving DecidableEq

/-! ## Supporting value types (`src/objects/types.rs`) -/

/-- `Name` (src/objects/types.rs:16). -/
structure Name where
  value : Str
  source : Option ExternalReference
  confidence : Option Str
deriving DecidableEq

/-- `Name::new` (src/objects/types.rs:31). -/
def Name.new (value : Str) : Name :=
  { value := value, source := none, confidence := none }

/-- `FieldData` (src/objects/types.rs:80). -/
structure FieldData where
  delivery_vectors : Option (List Str)
  first_seen : Option Nat
  last_seen : Option Nat
deriving DecidableEq

/-- `FieldDataBuilder` (src/objects/types.rs:121); all fields default to
`None`. -/
structure FieldDataBuilder where
  delivery_vectors : Option (List Str) := none
  first_seen : Option Nat := none
  last_seen : Option Nat := none
deriving DecidableEq

/-- `FieldDataBuilder::add_delivery_vector` (src/objects/types.rs:133):
`get_or_insert_with(Vec::new).push(vector)`. -/
def FieldDataBuilder.add_delivery_vector (b : FieldDataBuilder) (vector : Str) :
    FieldDataBuilder :=
  { b with delivery_vectors := some ((b.delivery_vectors.getD []) ++ [vector]) }

/-- `FieldDataBuilder::first_seen` (src/objects/types.rs:140). -/
def FieldDataBuilder.set_first_seen (b : FieldDataBuilder) (timestamp : Nat) :
    FieldDataBuilder :=
  { b with first_seen := some timestamp }

/-- `FieldDataBuilder::last_seen` (src/objects/types.rs:145). -/
def FieldDataBuilder.set_last_seen (b : FieldDataBuilder) (timestamp : Nat) :
    FieldDataBuilder :=
  { b with last_seen := some timestamp }

/-- `FieldDataBuilder::build` (src/objects/types.rs:150): rejects a fully
empty value. -/
def FieldDataBuilder.build (b : FieldDataBuilder) : Except MaecError FieldData :=
  if b.delivery_vectors.isNone && b.first_seen.isNone && b.last_seen.isNone then
    .error (.ValidationError
      ("FieldData must have at least one of: delivery_vectors, first_seen, or last_seen".toList))
  else
    .ok { delivery_vectors := b.delivery_vectors
          first_seen := b.first_seen
          last_seen := b.last_seen }

/-! ## Vocabularies

`src/vocab_large.rs` is part of this repository but is not present under
`src/`; only its declarations and callers are.  Modelled from the spec:
the behavior vocabulary is a "finite closed enumeration with one
wire-string per variant" (kebab-case wire strings, as for every vocabulary
in `src/vocab.rs`); the `CheckForPayload` variant and its use as a Behavior
name are evidenced by `tests/roundtrip.rs`.  Two representative variants
suffice for the claims. -/
inductive BehaviorVocab where
  | CheckForPayload
  | Keylogging
deriving DecidableEq

def behaviorVocabStr : BehaviorVocab → Str
  | .CheckForPayload => "check-for-payload".toList
  | .Keylogging => "keylogging".toList

def behaviorVocabOfStr (s : Str) : Option BehaviorVocab :=
  if s = "check-for-payload".toList then some .CheckForPayload
  else if s = "keylogging".toList then some .Keylogging
  else none

/-- Modelled from the spec: the malware-action vocabulary
(`src/vocab_large.rs`, missing from `src/`), a closed enumeration with
kebab-case wire strings disjoint from the behavior vocabulary. -/
inductive MalwareActionVocab where
  | CreateFile
deriving DecidableEq

def malwareActionVocabStr : MalwareActionVocab → Str
  | .CreateFile => "create-file".toList

def malwareActionVocabOfStr (s : Str) : Option MalwareActionVocab :=
  if s = "create-file".toList then some .CreateFile
  else none

/-! ## Record kinds -/

/-- `Behavior` (src/objects/behavior.rs:17). -/
structure Behavior where
  common : CommonProperties
  name : BehaviorVocab
  description : Option Str
  timestamp : Option Nat
  attributes : Option (List (Str × Json))
  action_refs : List Str
  technique_refs : List ExternalReference

/-- `Behavior::validate` (src/objects/behavior.rs:66).  The Rust message
text contains quote characters; the embedded message drops them. -/
def Behavior.validate (b : Behavior) : Except MaecError Unit :=
  if b.common.type ≠ "behavior".toList then
    .error (.ValidationError (("type must be behavior, got ".toList) ++ b.common.type))
  else if ¬ is_valid_maec_id b.common.id then
    .error (.InvalidId b.common.id)
  else
    .ok ()

/-- `BehaviorBuilder` (src/objects/behavior.rs:98). -/
structure BehaviorBuilder where
  id : Option Str := none
  name : Option BehaviorVocab := none
  description : Option Str := none
  timestamp : Option Nat := none
  attributes : Option (List (Str × Json)) := none
  action_refs : List Str := []
  technique_refs : List ExternalReference := []

/-- `BehaviorBuilder::id` (src/objects/behavior.rs:109); named `with_id`
here because the field projection already uses the name `id`. -/
def BehaviorBuilder.with_id (b : BehaviorBuilder) (id : Str) : BehaviorBuilder :=
  { b with id := some id }

/-- `BehaviorBuilder::name` (src/objects/behavior.rs:114). -/
def BehaviorBuilder.with_name (b : BehaviorBuilder) (name : BehaviorVocab) : BehaviorBuilder :=
  { b with name := some name }

/-- `BehaviorBuilder::description` (src/objects/behavior.rs:119). -/
def BehaviorBuilder.with_description (b : BehaviorBuilder) (desc : Str) : BehaviorBuilder :=
  { b with description := some desc }

/-- `BehaviorBuilder::build` (src/objects/behavior.rs:139). -/
def BehaviorBuilder.build (b : BehaviorBuilder) (uuid : Str) (now : Nat) :
    Except MaecError Behavior :=
  match b.name with
  | none => .error (.MissingField ("name".toList))
  | some name =>
    let common0 := CommonProperties.new ("behavior".toList) none uuid now
    let common :=
      match b.id with
      | some i => { common0 with id := i }
      | none => common0
    let behavior : Behavior :=
      { common := common
        name := name
        description := b.description
        timestamp := b.timestamp
        attributes := b.attributes
        action_refs := b.action_refs
        technique_refs := b.technique_refs }
    match behavior.validate with
    | .error e => .error e
    | .ok _ => .ok behavior

/-- `Collection` (src/objects/collection.rs:14). -/
structure Collection where
  common : CommonProperties
  name : Option Str
  description : Option Str

/-- `Collection::validate` (src/objects/collection.rs:44). -/
def Collection.validate (c : Collection) : Except MaecError Unit :=
  if c.common.type ≠ "collection".toList then
    .error (.ValidationError (("type must be collection, got ".toList) ++ c.common.type))
  else if ¬ is_valid_maec_id c.common.id then
    .error (.InvalidId c.common.id)
  else
    .ok ()

/-- `CollectionBuilder` (src/objects/collection.rs:82). -/
structure CollectionBuilder where
  id : Option Str := none
  name : Option Str := none
  description : Option Str := none

def CollectionBuilder.with_id (b : CollectionBuilder) (id : Str) : CollectionBuilder :=
  { b with id := some id }

def CollectionBuilder.with_name (b : CollectionBuilder) (name : Str) : CollectionBuilder :=
  { b with name := some name }

/-- `CollectionBuilder::build` (src/objects/collection.rs:104). -/
def CollectionBuilder.build (b : CollectionBuilder) (uuid : Str) (now : Nat) :
    Except MaecError Collection :=
  let common0 := CommonProperties.new ("collection".toList) none uuid now
  let common :=
    match b.id with
    | some i => { common0 with id := i }
    | none => common0
  let collection : Collection :=
    { common := common, name := b.name, description := b.description }
  match collection.validate with
  | .error e => .error e
  | .ok _ => .ok collection

/-- `Relationship` (src/objects/relationship.rs:14). -/
structure Relationship where
  common : CommonProperties
  source_ref : Str
  target_ref : Str
  relationship_type : Str
  description : Option Str

/-- `RelationshipBuilder` (src/objects/relationship.rs:68). -/
structure RelationshipBuilder where
  id : Option Str := none
  source_ref : Option Str := none
  target_ref : Option Str := none
  relationship_type : Option Str := none
  description : Option Str := none

def RelationshipBuilder.with_id (b : RelationshipBuilder) (id : Str) : RelationshipBuilder :=
  { b with id := some id }

def RelationshipBuilder.with_source_ref (b : RelationshipBuilder) (r : Str) :
    RelationshipBuilder :=
  { b with source_ref := some r }

def RelationshipBuilder.with_target_ref (b : RelationshipBuilder) (r : Str) :
    RelationshipBuilder :=
  { b with target_ref := some r }

def RelationshipBuilder.with_relationship_type (b : RelationshipBuilder) (t : Str) :
    RelationshipBuilder :=
  { b with relationship_type := some t }

/-- `RelationshipBuilder::build` (src/objects/relationship.rs:102): checks
only that the three required fields are present; the caller-supplied `id`
and the two reference fields are taken verbatim, with no validation. -/
def RelationshipBuilder.build (b : RelationshipBuilder) (uuid : Str) (now : Nat) :
    Except MaecError Relationship :=
  match b.source_ref with
  | none => .error (.MissingField ("source_ref".toList))
  | some source_ref =>
    match b.target_ref with
    | none => .error (.MissingField ("target_ref".toList))
    | some target_ref =>
      match b.relationship_type with
      | none => .error (.MissingField ("relationship_type".toList))
      | some relationship_type =>
        let common0 := CommonProperties.new ("relationship".toList) none uuid now
        let common :=
          match b.id with
          | some i => { common0 with id := i }
          | none => common0
        .ok { common := common
              source_ref := source_ref
              target_ref := target_ref
              relationship_type := relationship_type
              description := b.description }

/-- Modelled from the spec: `MalwareAction`
(`src/objects/malware_action.rs`, missing from `src/`): a record kind
composed of the common header plus a required vocabulary `name` and an
optional description (spec section 4.3: record kinds are "composed the
same way"). -/
structure MalwareAction where
  common : CommonProperties
  name : MalwareActionVocab
  description : Option Str

/-- Modelled from the spec: `MalwareFamily`
(`src/objects/malware_family.rs`, missing from `src/`): required `name` of
the embedded `Name` value type, optional description, and labels
(`add_label` is evidenced by the crate documentation in src/lib.rs). -/
structure MalwareFamily where
  common : CommonProperties
  name : Name
  description : Option Str
  labels : List Str

/-- Modelled from the spec: `MalwareInstance`
(`src/objects/malware_instance.rs`, missing from `src/`): required
instance-object references, optional `Name` and description. -/
structure MalwareInstance where
  common : CommonProperties
  instance_object_refs : List Str
  name : Option Name
  description : Option Str

/-! ## The Package aggregate (`src/objects/package.rs`) -/

/-- `MaecObjectType` (src/objects/package.rs:34): the `#[serde(untagged)]`
union, with the variants in source declaration order. -/
inductive MaecObjectType where
  | Behavior (b : Behavior)
  | Collection (c : Collection)
  | MalwareAction (a : MalwareAction)
  | MalwareFamily (f : MalwareFamily)
  | MalwareInstance (i : MalwareInstance)

/-- Declaration position of a variant in `MaecObjectType`: the priority
order of the untagged decoding attempts. -/
def kindIndex : MaecObjectType → Nat
  | .Behavior _ => 0
  | .Collection _ => 1
  | .MalwareAction _ => 2
  | .MalwareFamily _ => 3
  | .MalwareInstance _ => 4

/-- Discriminator: is this element the `Behavior` variant? -/
def MaecObjectType.isBehaviorKind : MaecObjectType → Bool
  | .Behavior _ => true
  | _ => false

def MaecObjectType.isMalwareFamilyKind : MaecObjectType → Bool
  | .MalwareFamily _ => true
  | _ => false

def MaecObjectType.isMalwareInstanceKind : MaecObjectType → Bool
  | .MalwareInstance _ => true
  | _ => false

def MaecObjectType.isMalwareActionKind : MaecObjectType → Bool
  | .MalwareAction _ => true
  | _ => false

/-- `Package` (src/objects/package.rs:13). -/
structure Package where
  common : CommonProperties
  maec_objects : List MaecObjectType
  observable_objects : Option (List (Str × Json))
  relationships : List Relationship

/-- `Package::validate` (src/objects/package.rs:64). -/
def Package.validate (p : Package) : Except MaecError Unit :=
  if p.common.type ≠ "package".toList then
    .error (.ValidationError (("type must be package, got ".toList) ++ p.common.type))
  else if p.common.schema_version ≠ some ("5.0".toList) then
    .error (.ValidationError ("schema_version must be 5.0".toList))
  else if ¬ is_valid_maec_id p.common.id then
    .error (.InvalidId p.common.id)
  else
    .ok ()

/-- `Package::malware_families` (src/objects/package.rs:86):
`iter().filter_map(..).collect()`. -/
def Package.malware_families (p : Package) : List MalwareFamily :=
  p.maec_objects.filterMap fun obj =>
    match obj with
    | .MalwareFamily family => some family
    | _ => none

/-- `Package::malware_instances` (src/objects/package.rs:96). -/
def Package.malware_instances (p : Package) : List MalwareInstance :=
  p.maec_objects.filterMap fun obj =>
    match obj with
    | .MalwareInstance inst => some inst
    | _ => none

/-- `Package::behaviors` (src/objects/package.rs:106). -/
def Package.behaviors (p : Package) : List Behavior :=
  p.maec_objects.filterMap fun obj =>
    match obj with
    | .Behavior behavior => some behavior
    | _ => none

/-- `Package::malware_actions` (src/objects/package.rs:116). -/
def Package.malware_actions (p : Package) : List MalwareAction :=
  p.maec_objects.filterMap fun obj =>
    match obj with
    | .MalwareAction action => some action
    | _ => none

/-- `PackageBuilder` (src/objects/package.rs:147).  The builder exposes no
setters for `observable_objects` and `relationships`, so they keep their
`Default` values. -/
structure PackageBuilder where
  id : Option Str := none
  schema_version : Option Str := none
  maec_objects : List MaecObjectType := []
  observable_objects : Option (List (Str × Json)) := none
  relationships : List Relationship := []

def PackageBuilder.with_id (b : PackageBuilder) (id : Str) : PackageBuilder :=
  { b with id := some id }

def PackageBuilder.with_schema_version (b : PackageBuilder) (v : Str) : PackageBuilder :=
  { b with schema_version := some v }

/-- `PackageBuilder::add_object` (src/objects/package.rs:166). -/
def PackageBuilder.add_object (b : PackageBuilder) (object : MaecObjectType) : PackageBuilder :=
  { b with maec_objects := b.maec_objects ++ [object] }

/-- `PackageBuilder::add_behavior` (src/objects/package.rs:183). -/
def PackageBuilder.add_behavior (b : PackageBuilder) (behavior : Behavior) : PackageBuilder :=
  { b with maec_objects := b.maec_objects ++ [.Behavior behavior] }

/-- `PackageBuilder::add_malware_family` (src/objects/package.rs:171). -/
def PackageBuilder.add_malware_family (b : PackageBuilder) (family : MalwareFamily) :
    PackageBuilder :=
  { b with maec_objects := b.maec_objects ++ [.MalwareFamily family] }

/-- `PackageBuilder::build` (src/objects/package.rs:194). -/
def PackageBuilder.build (b : PackageBuilder) (uuid : Str) (now : Nat) :
    Except MaecError Package :=
  let common0 := CommonProperties.new ("package".toList) none uuid now
  let common1 :=
    match b.id with
    | some i => { common0 with id := i }
    | none => common0
  let common :=
    match b.schema_version with
    | some v => { common1 with schema_version := some v }
    | none => common1
  let package : Package :=
    { common := common
      maec_objects := b.maec_objects
      observable_objects := b.observable_objects
      relationships := b.relationships }
  match package.validate with
  | .error e => .error e
  | .ok _ => .ok package

/-! ## The serde JSON codec

Encoding mirrors the field order and `skip_serializing_if` attributes of
each struct; decoding mirrors serde struct deserialization: required
fields must be present and well-typed, `Option` fields default to `None`
when absent (and accept `null`), `#[serde(default)]` fields take their
default when absent, and with a flattened extension map every field not
consumed by a declared field is collected into `custom_properties`.
Timestamps ride as JSON numbers (the stand-in for the external
chrono RFC-3339 string codec, which the spec assumes faithful). -/

def lookupField : List (Str × Json) → Str → Option Json
  | [], _ => none
  | (k', v) :: rest, k => if k' = k then some v else lookupField rest k

/-- The fields left over for the flattened `custom_properties` map. -/
def removeFields (o : List (Str × Json)) (ks : List Str) : List (Str × Json) :=
  o.filter fun p => !(ks.contains p.1)

/-- Required `String` field. -/
def reqStrField (o : List (Str × Json)) (k : Str) : Option Str :=
  match lookupField o k with
  | some (.str s) => some s
  | _ => none

/-- `Option<String>` field: absent or `null` is `None`. -/
def optStrField (o : List (Str × Json)) (k : Str) : Option (Option Str) :=
  match lookupField o k with
  | none => some none
  | some .null => some none
  | some (.str s) => some (some s)
  | some _ => none

/-- Timestamp field with `#[serde(default = "default_now")]`: absent means
`Utc::now()`. -/
def tsField (now : Nat) (o : List (Str × Json)) (k : Str) : Option Nat :=
  match lookupField o k with
  | none => some now
  | some (.num n) => some n
  | some _ => none

/-- `Option` timestamp field. -/
def optTsField (o : List (Str × Json)) (k : Str) : Option (Option Nat) :=
  match lookupField o k with
  | none => some none
  | some .null => some none
  | some (.num n) => some (some n)
  | some _ => none

/-- `schema_version` with `#[serde(default = "default_version")]`: absent
means `Some("5.0")`. -/
def verField (o : List (Str × Json)) : Option (Option Str) :=
  match lookupField o ("schema_version".toList) with
  | none => some (some ("5.0".toList))
  | some .null => some none
  | some (.str s) => some (some s)
  | some _ => none

/-- Decode a JSON array elementwise; any element failure fails the whole
array. -/
def decodeArr (f : Json → Option α) : List Json → Option (List α)
  | [] => some []
  | j :: js =>
    match f j with
    | none => none
    | some a => (decodeArr f js).map (a :: ·)

def strListOfJson : List Json → Option (List Str)
  | [] => some []
  | .str s :: rest => (strListOfJson rest).map (s :: ·)
  | _ => none

/-- `Vec<String>` field with `#[serde(default)]`: absent means empty. -/
def strListField (o : List (Str × Json)) (k : Str) : Option (List Str) :=
  match lookupField o k with
  | none => some []
  | some (.arr xs) => strListOfJson xs
  | some _ => none

/-- `Option<HashMap<String, Value>>` field. -/
def optMapField (o : List (Str × Json)) (k : Str) : Option (Option (List (Str × Json))) :=
  match lookupField o k with
  | none => some none
  | some .null => some none
  | some (.obj fs) => some (some fs)
  | some _ => none

def encodeOptStr (k : Str) : Option Str → List (Str × Json)
  | some s => [(k, .str s)]
  | none => []

def encodeOptTs (k : Str) : Option Nat → List (Str × Json)
  | some t => [(k, .num t)]
  | none => []

def encodeOptMap (k : Str) : Option (List (Str × Json)) → List (Str × Json)
  | some fs => [(k, .obj fs)]
  | none => []

/-- `Vec` field with `skip_serializing_if = "Vec::is_empty"`. -/
def encodeVecSkipEmpty (k : Str) (f : α → Json) (xs : List α) : List (Str × Json) :=
  match xs with
  | [] => []
  | _ => [(k, .arr (xs.map f))]

def commonKeys : List Str :=
  ["type".toList, "id".toList, "schema_version".toList, "created".toList,
   "modified".toList, "created_by_ref".toList]

/-- The flattened `CommonProperties` fields, in struct declaration order;
`schema_version` and `created_by_ref` are skipped when `None`, and the
extension map is flattened at the same level. -/
def encodeCommonProps (c : CommonProperties) : List (Str × Json) :=
  [("type".toList, .str c.type), ("id".toList, .str c.id)]
  ++ encodeOptStr ("schema_version".toList) c.schema_version
  ++ [("created".toList, .num c.created), ("modified".toList, .num c.modified)]
  ++ encodeOptStr ("created_by_ref".toList) c.created_by_ref
  ++ c.custom_properties

/-- Decode the flattened `CommonProperties` from an object whose declared
outer fields are `outerKeys`; every unconsumed field lands in
`custom_properties`. -/
def decodeCommonProps (now : Nat) (o : List (Str × Json)) (outerKeys : List Str) :
    Option CommonProperties := do
  let ty ← reqStrField o ("type".toList)
  let id ← reqStrField o ("id".toList)
  let ver ← verField o
  let created ← tsField now o ("created".toList)
  let modified ← tsField now o ("modified".toList)
  let cbr ← optStrField o ("created_by_ref".toList)
  pure { type := ty
         id := id
         schema_version := ver
         created := created
         modified := modified
         created_by_ref := cbr
         custom_properties := removeFields o (commonKeys ++ outerKeys) }

def encodeExternalReference (r : ExternalReference) : Json :=
  .obj ([("source_name".toList, .str r.source_name)]
    ++ encodeOptStr ("description".toList) r.description
    ++ encodeOptStr ("url".toList) r.url
    ++ encodeOptStr ("external_id".toList) r.external_id)

/-- `ExternalReference` has no flatten map, so serde ignores unknown
fields. -/
def decodeExternalReference : Json → Option ExternalReference
  | .obj o => do
    let source_name ← reqStrField o ("source_name".toList)
    let description ← optStrField o ("description".toList)
    let url ← optStrField o ("url".toList)
    let external_id ← optStrField o ("external_id".toList)
    pure { source_name := source_name
           description := description
           url := url
           external_id := external_id }
  | _ => none

/-- `Vec<ExternalReference>` field with `#[serde(default)]`. -/
def erListField (o : List (Str × Json)) (k : Str) : Option (List ExternalReference) :=
  match lookupField o k with
  | none => some []
  | some (.arr xs) => decodeArr decodeExternalReference xs
  | some _ => none

def encodeName (n : Name) : Json :=
  .obj ([("value".toList, .str n.value)]
    ++ (match n.source with
        | some r => [("source".toList, encodeExternalReference r)]
        | none => [])
    ++ encodeOptStr ("confidence".toList) n.confidence)

def decodeName : Json → Option Name
  | .obj o => do
    let value ← reqStrField o ("value".toList)
    let source ← (match lookupField o ("source".toList) with
      | none => some none
      | some .null => some none
      | some j => (decodeExternalReference j).map some)
    let confidence ← optStrField o ("confidence".toList)
    pure { value := value, source := source, confidence := confidence }
  | _ => none

def behaviorKeys : List Str :=
  ["name".toList, "description".toList, "timestamp".toList, "attributes".toList,
   "action_refs".toList, "technique_refs".toList]

def encodeBehavior (b : Behavior) : Json :=
  .obj (encodeCommonProps b.common
    ++ [("name".toList, .str (behaviorVocabStr b.name))]
    ++ encodeOptStr ("description".toList) b.description
    ++ encodeOptTs ("timestamp".toList) b.timestamp
    ++ encodeOptMap ("attributes".toList) b.attributes
    ++ encodeVecSkipEmpty ("action_refs".toList) Json.str b.action_refs
    ++ encodeVecSkipEmpty ("technique_refs".toList) encodeExternalReference b.technique_refs)

def decodeBehavior (now : Nat) : Json → Option Behavior
  | .obj o => do
    let name ← (match lookupField o ("name".toList) with
      | some (.str s) => behaviorVocabOfStr s
      | _ => none)
    let description ← optStrField o ("description".toList)
    let timestamp ← optTsField o ("timestamp".toList)
    let attributes ← optMapField o ("attributes".toList)
    let action_refs ← strListField o ("action_refs".toList)
    let technique_refs ← erListField o ("technique_refs".toList)
    let common ← decodeCommonProps now o behaviorKeys
    pure { common := common
           name := name
           description := description
           timestamp := timestamp
           attributes := attributes
           action_refs := action_refs
           technique_refs := technique_refs }
  | _ => none

def collectionKeys : List Str := ["name".toList, "description".toList]

def encodeCollection (c : Collection) : Json :=
  .obj (encodeCommonProps c.common
    ++ encodeOptStr ("name".toList) c.name
    ++ encodeOptStr ("description".toList) c.description)

def decodeCollection (now : Nat) : Json → Option Collection
  | .obj o => do
    let name ← optStrField o ("name".toList)
    let description ← optStrField o ("description".toList)
    let common ← decodeCommonProps now o collectionKeys
    pure { common := common, name := name, description := description }
  | _ => none

def relationshipKeys : List Str :=
  ["source_ref".toList, "target_ref".toList, "relationship_type".toList,
   "description".toList]

def encodeRelationship (r : Relationship) : Json :=
  .obj (encodeCommonProps r.common
    ++ [("source_ref".toList, .str r.source_ref),
        ("target_ref".toList, .str r.target_ref),
        ("relationship_type".toList, .str r.relationship_type)]
    ++ encodeOptStr ("description".toList) r.description)

def decodeRelationship (now : Nat) : Json → Option Relationship
  | .obj o => do
    let source_ref ← reqStrField o ("source_ref".toList)
    let target_ref ← reqStrField o ("target_ref".toList)
    let relationship_type ← reqStrField o ("relationship_type".toList)
    let description ← optStrField o ("description".toList)
    let common ← decodeCommonProps now o relationshipKeys
    pure { common := common
           source_ref := source_ref
           target_ref := target_ref
           relationship_type := relationship_type
           description := description }
  | _ => none

def malwareActionKeys : List Str := ["name".toList, "description".toList]

def encodeMalwareAction (a : MalwareAction) : Json :=
  .obj (encodeCommonProps a.common
    ++ [("name".toList, .str (malwareActionVocabStr a.name))]
    ++ encodeOptStr ("description".toList) a.description)

def decodeMalwareAction (now : Nat) : Json → Option MalwareAction
  | .obj o => do
    let name ← (match lookupField o ("name".toList) with
      | some (.str s) => malwareActionVocabOfStr s
      | _ => none)
    let description ← optStrField o ("description".toList)
    let common ← decodeCommonProps now o malwareActionKeys
    pure { common := common, name := name, description := description }
  | _ => none

def malwareFamilyKeys : List Str :=
  ["name".toList, "description".toList, "labels".toList]

def encodeMalwareFamily (f : MalwareFamily) : Json :=
  .obj (encodeCommonProps f.common
    ++ [("name".toList, encodeName f.name)]
    ++ encodeOptStr ("description".toList) f.description
    ++ encodeVecSkipEmpty ("labels".toList) Json.str f.labels)

def decodeMalwareFamily (now : Nat) : Json → Option MalwareFamily
  | .obj o => do
    let name ← (match lookupField o ("name".toList) with
      | some j => decodeName j
      | none => none)
    let description ← optStrField o ("description".toList)
    let labels ← strListField o ("labels".toList)
    let common ← decodeCommonProps now o malwareFamilyKeys
    pure { common := common, name := name, description := description, labels := labels }
  | _ => none

def malwareInstanceKeys : List Str :=
  ["instance_object_refs".toList, "name".toList, "description".toList]

def encodeMalwareInstance (i : MalwareInstance) : Json :=
  .obj (encodeCommonProps i.common
    ++ [("instance_object_refs".toList, .arr (i.instance_object_refs.map Json.str))]
    ++ (match i.name with
        | some n => [("name".toList, encodeName n)]
        | none => [])
    ++ encodeOptStr ("description".toList) i.description)

def decodeMalwareInstance (now : Nat) : Json → Option MalwareInstance
  | .obj o => do
    let instance_object_refs ← (match lookupField o ("instance_object_refs".toList) with
      | some (.arr xs) => strListOfJson xs
      | _ => none)
    let name ← (match lookupField o ("name".toList) with
      | none => some none
      | some .null => some none
      | some j => (decodeName j).map some)
    let description ← optStrField o ("description".toList)
    let common ← decodeCommonProps now o malwareInstanceKeys
    pure { common := common
           instance_object_refs := instance_object_refs
           name := name
           description := description }
  | _ => none

/-- Encoding an untagged enum is the encoding of its payload
(src/objects/package.rs:32, `#[serde(untagged)]`). -/
def encodeMaecObjectType : MaecObjectType → Json
  | .Behavior b => encodeBehavior b
  | .Collection c => encodeCollection c
  | .MalwareAction a => encodeMalwareAction a
  | .MalwareFamily f => encodeMalwareFamily f
  | .MalwareInstance i => encodeMalwareInstance i

/-- The untagged decoder: serde tries each variant in declaration order
(Behavior, Collection, MalwareAction, MalwareFamily, MalwareInstance) and
takes the first that structurally matches. -/
def decodeMaecObjectType (now : Nat) (j : Json) : Option MaecObjectType :=
  match decodeBehavior now j with
  | some b => some (.Behavior b)
  | none =>
    match decodeCollection now j with
    | some c => some (.Collection c)
    | none =>
      match decodeMalwareAction now j with
      | some a => some (.MalwareAction a)
      | none =>
        match decodeMalwareFamily now j with
        | some f => some (.MalwareFamily f)
        | none => (decodeMalwareInstance now j).map .MalwareInstance

/-- The candidate decoder at a given priority position, as a standalone
function (position n is the n-th declared variant of `MaecObjectType`). -/
def decodeKind (now : Nat) : Nat → Json → Option MaecObjectType
  | 0, j => (decodeBehavior now j).map .Behavior
  | 1, j => (decodeCollection now j).map .Collection
  | 2, j => (decodeMalwareAction now j).map .MalwareAction
  | 3, j => (decodeMalwareFamily now j).map .MalwareFamily
  | 4, j => (decodeMalwareInstance now j).map .MalwareInstance
  | _, _ => none

def packageKeys : List Str :=
  ["maec_objects".toList, "observable_objects".toList, "relationships".toList]

def encodePackage (p : Package) : Json :=
  .obj (encodeCommonProps p.common
    ++ [("maec_objects".toList, .arr (p.maec_objects.map encodeMaecObjectType))]
    ++ encodeOptMap ("observable_objects".toList) p.observable_objects
    ++ encodeVecSkipEmpty ("relationships".toList) encodeRelationship p.relationships)

def decodePackage (now : Nat) : Json → Option Package
  | .obj o => do
    let maec_objects ← (match lookupField o ("maec_objects".toList) with
      | none => some []
      | some (.arr xs) => decodeArr (decodeMaecObjectType now) xs
      | some _ => none)
    let observable_objects ← optMapField o ("observable_objects".toList)
    let relationships ← (match lookupField o ("relationships".toList) with
      | none => some []
      | some (.arr xs) => decodeArr (decodeRelationship now) xs
      | some _ => none)
    let common ← decodeCommonProps now o packageKeys
    pure { common := common
           maec_objects := maec_objects
           observable_objects := observable_objects
           relationships := relationships }
  | _ => none

/-! ## Concrete fixtures used by individual claims -/

/-- A wire value whose structural shape is matched by two kinds at once:
it decodes as a `Behavior` (vocabulary name, priority 0) and also as a
`Collection` (string name, priority 1). -/
def c2WireValue : Json :=
  .obj [(("type").toList, .str (("behavior").toList)),
        (("id").toList, .str (("behavior--550e8400-e29b-41d4-a716-446655440000").toList)),
        (("created").toList, .num 1),
        (("modified").toList, .num 1),
        (("name").toList, .str (("check-for-payload").toList))]

/-- `c2WireValue` read as a Behavior. -/
def c2AsBehavior : Behavior :=
  { common :=
      { type := ("behavior").toList
        id := ("behavior--550e8400-e29b-41d4-a716-446655440000").toList
        schema_version := some (("5.0").toList)
        created := 1
        modified := 1
        created_by_ref := none
        custom_properties := [] }
    name := .CheckForPayload
    description := none
    timestamp := none
    attributes := none
    action_refs := []
    technique_refs := [] }

/-- `c2WireValue` read as a Collection. -/
def c2AsCollection : Collection :=
  { common :=
      { type := ("behavior").toList
        id := ("behavior--550e8400-e29b-41d4-a716-446655440000").toList
        schema_version := some (("5.0").toList)
        created := 1
        modified := 1
        created_by_ref := none
        custom_properties := [] }
    name := some (("check-for-payload").toList)
    description := none }

/-- A wire document that deserializes into a `Package` on which
`validate()` fails: its `type` field is `"widget"`. -/
def c10WireValue : Json :=
  .obj [(("type").toList, .str (("widget").toList)),
        (("id").toList, .str (("package--550e8400-e29b-41d4-a716-446655440000").toList)),
        (("created").toList, .num 7),
        (("modified").toList, .num 7),
        (("maec_objects").toList, .arr [])]

/-- The `Package` value obtained by decoding `c10WireValue`. -/
def c10Package : Package :=
  { common :=
      { type := ("widget").toList
        id := ("package--550e8400-e29b-41d4-a716-446655440000").toList
        schema_version := some (("5.0").toList)
        created := 7
        modified := 7
        created_by_ref := none
        custom_properties := [] }
    maec_objects := []
    observable_objects := none
    relationships := [] }

/-- A successfully buildable Collection named by a behavior-vocabulary
string (`CollectionBuilder` accepts any name). -/
def c1CexCollection : Collection :=
  { common := CommonProperties.new (("collection").toList) none
      (("111e8400-e29b-41d4-a716-446655440000").toList) 3
    name := some (("check-for-payload").toList)
    description := none }

def c1CexBuilder : PackageBuilder :=
  ({} : PackageBuilder).add_object (.Collection c1CexCollection)

/-- The package built from `c1CexBuilder`. -/
def c1CexPackage : Package :=
  { common :=
      { type := ("package").toList
        id := generate_maec_id (("package").toList)
          (("222e8400-e29b-41d4-a716-446655440000").toList)
        schema_version := some (("5.0").toList)
        created := 3
        modified := 3
        created_by_ref := none
        custom_properties := [] }
    maec_objects := [.Collection c1CexCollection]
    observable_objects := none
    relationships := [] }

/-- What `c1CexPackage` decodes back to: the contained Collection comes
back as a `Behavior`, because the Behavior decoder is tried first and the
name string is in the behavior vocabulary. -/
def c1CexDecoded : Package :=
  { common := c1CexPackage.common
    maec_objects :=
      [.Behavior
        { common := c1CexCollection.common
          name := .CheckForPayload
          description := none
          timestamp := none
          attributes := none
          action_refs := []
          technique_refs := [] }]
    observable_objects := none
    relationships := [] }

def c1WitBehavior : Behavior :=
  { common := CommonProperties.new (("behavior").toList) none
      (("333e8400-e29b-41d4-a716-446655440000").toList) 5
    name := .CheckForPayload
    description := some (("Test behavior").toList)
    timestamp := none
    attributes := none
    action_refs := []
    technique_refs := [] }

def c1WitCollection : Collection :=
  { common := CommonProperties.new (("collection").toList) none
      (("444e8400-e29b-41d4-a716-446655440000").toList) 5
    name := none
    description := none }

def c1WitBuilder : PackageBuilder :=
  (({} : PackageBuilder).add_behavior c1WitBehavior).add_object (.Collection c1WitCollection)

def c1WitPackage : Package :=
  { common :=
      { type := ("package").toList
        id := generate_maec_id (("package").toList)
          (("555e8400-e29b-41d4-a716-446655440000").toList)
        schema_version := some (("5.0").toList)
        created := 5
        modified := 5
        created_by_ref := none
        custom_properties := [] }
    maec_objects := [.Behavior c1WitBehavior, .Collection c1WitCollection]
    observable_objects := none
    relationships := [] }

/-! # Theorems

## Lemmas about the `"--"` split -/

theorem splitDDAux_ne_nil (acc s : Str) : splitDDAux acc s ≠ [] := by
  induction acc, s using splitDDAux.induct with
  | case1 acc => simp [splitDDAux]
  | case2 acc c => simp [splitDDAux]
  | case3 acc c1 c2 rest h ih => simp [splitDDAux, h, ih]
  | case4 acc c1 c2 rest h ih => simp [splitDDAux, h, ih]

theorem splitDDAux_of_noDD (s : Str) (h : containsDD s = false) :
    ∀ acc, splitDDAux acc s = [acc ++ s] := by
  induction s using containsDD.induct with
  | case1 => intro acc; simp [splitDDAux]
  | case2 c => intro acc; simp [splitDDAux]
  | case3 c1 c2 rest ih =>
    intro acc
    simp only [containsDD, Bool.or_eq_false_iff, Bool.and_eq_false_iff] at h
    obtain ⟨h1, h2⟩ := h
    rw [splitDDAux]
    have hne : ¬(c1 = '-' ∧ c2 = '-') := by
      rcases h1 with h | h <;> simp_all
    rw [if_neg hne, ih h2]
    simp

/-- Scanning `k ++ "--" ++ u` splits exactly after `k` whenever `k` contains
no `"--"` and does not end in `'-'` (otherwise an earlier occurrence of the
separator would be found). -/
theorem splitDDAux_append (k u : Str) (hk : containsDD k = false)
    (hlast : k.getLast? ≠ some '-') :
    ∀ acc, splitDDAux acc (k ++ '-' :: '-' :: u) = (acc ++ k) :: splitDD u := by
  induction k using containsDD.induct with
  | case1 => intro acc; simp [splitDDAux, splitDD]
  | case2 c =>
    intro acc
    have hc : ¬ (c = '-') := by
      intro h; exact hlast (by simp [h])
    simp [splitDDAux, hc, splitDD]
  | case3 c1 c2 rest ih =>
    intro acc
    simp only [containsDD, Bool.or_eq_false_iff, Bool.and_eq_false_iff] at hk
    obtain ⟨h1, h2⟩ := hk
    have hne : ¬(c1 = '-' ∧ c2 = '-') := by
      rcases h1 with h | h <;> simp_all
    have hlast' : (c2 :: rest).getLast? ≠ some '-' := by
      simpa [List.getLast?_cons_cons] using hlast
    rw [show (c1 :: c2 :: rest) ++ '-' :: '-' :: u = c1 :: c2 :: (rest ++ '-' :: '-' :: u) from rfl]
    rw [splitDDAux, if_neg hne]
    rw [show c2 :: (rest ++ '-' :: '-' :: u) = (c2 :: rest) ++ '-' :: '-' :: u from rfl]
    rw [ih h2 hlast']
    simp

theorem joinDD_cons_cons (g h : Str) (t : List Str) :
    joinDD (g :: h :: t) = g ++ '-' :: '-' :: joinDD (h :: t) := rfl

theorem joinDD_splitDDAux : ∀ acc s, joinDD (splitDDAux acc s) = acc ++ s := by
  intro acc s
  induction acc, s using splitDDAux.induct with
  | case1 acc => simp [splitDDAux, joinDD]
  | case2 acc c => simp [splitDDAux, joinDD]
  | case3 acc c1 c2 rest h ih =>
    obtain ⟨rfl, rfl⟩ := h
    rw [splitDDAux, if_pos ⟨rfl, rfl⟩]
    obtain ⟨g, gs, hg⟩ := List.exists_cons_of_ne_nil (splitDDAux_ne_nil [] rest)
    rw [hg, joinDD_cons_cons, ← hg, ih]
    simp
  | case4 acc c1 c2 rest h ih =>
    rw [splitDDAux, if_neg h, ih]
    simp

/-- `splitDD id = [t, u]` forces `id = t ++ "--" ++ u`. -/
theorem eq_append_of_splitDD (id t u : Str) (h : splitDD id = [t, u]) :
    id = t ++ '-' :: '-' :: u := by
  have hj := joinDD_splitDDAux [] id
  rw [splitDD] at h
  rw [h] at hj
  simpa [joinDD_cons_cons, joinDD] using hj.symm

/-! ## Lemmas about UUID strings -/

theorem ne_dash_of_isHexDigit (c : Char) (h : isHexDigit c = true) : ¬ (c = '-') := by
  intro hc
  subst hc
  simp [isHexDigit] at h

theorem containsDD_dash_cons (c : Char) (s : Str) (h : isHexDigit c = true) :
    containsDD ('-' :: c :: s) = containsDD (c :: s) := by
  have := ne_dash_of_isHexDigit c h
  simp [containsDD, this]

theorem containsDD_hex_append (g : Str) (hg : g.all isHexDigit = true) :
    ∀ s, containsDD (g ++ s) = containsDD s := by
  induction g with
  | nil => intro s; rfl
  | cons c g' ih =>
    intro s
    simp only [List.all_cons, Bool.and_eq_true] at hg
    obtain ⟨hc, hg'⟩ := hg
    have hcd := ne_dash_of_isHexDigit c hc
    cases hgs : g' ++ s with
    | nil =>
      obtain ⟨hg0, hs0⟩ := List.append_eq_nil.mp hgs
      subst hg0
      subst hs0
      simp [containsDD]
    | cons d rest =>
      calc containsDD (c :: (g' ++ s))
          = containsDD (c :: d :: rest) := by rw [hgs]
        _ = ((c = '-' && d = '-') || containsDD (d :: rest)) := rfl
        _ = containsDD (d :: rest) := by simp [hcd]
        _ = containsDD s := by rw [← hgs]; exact ih hg' s

theorem containsDD_dash_group (g : Str) (hg : g.all isHexDigit = true) (hne : g ≠ [])
    (s : Str) : containsDD ('-' :: (g ++ s)) = containsDD (g ++ s) := by
  obtain ⟨x, g', rfl⟩ := List.exists_cons_of_ne_nil hne
  simp only [List.all_cons, Bool.and_eq_true] at hg
  simp only [List.cons_append]
  exact containsDD_dash_cons x (g' ++ s) hg.1

theorem joinDash_cons_cons (g h : Str) (t : List Str) :
    joinDash (g :: h :: t) = g ++ '-' :: joinDash (h :: t) := rfl

theorem splitDashAux_ne_nil (s : Str) : ∀ acc, splitDashAux acc s ≠ [] := by
  induction s with
  | nil => intro acc; simp [splitDashAux]
  | cons c rest ih =>
    intro acc
    by_cases h : c = '-' <;> simp [splitDashAux, h, ih]

theorem joinDash_splitDashAux (s : Str) : ∀ acc, joinDash (splitDashAux acc s) = acc ++ s := by
  induction s with
  | nil => intro acc; simp [splitDashAux, joinDash]
  | cons c rest ih =>
    intro acc
    by_cases h : c = '-'
    · subst h
      rw [splitDashAux, if_pos rfl]
      obtain ⟨g, gs, hg⟩ := List.exists_cons_of_ne_nil (splitDashAux_ne_nil rest [])
      rw [hg, joinDash_cons_cons, ← hg, ih []]
      simp
    · rw [splitDashAux, if_neg h, ih (acc ++ [c])]
      simp

theorem hexGroup_charcheck (n : Nat) (g : Str) (h : hexGroup n g = true) :
    g.length = n ∧ g.all isHexDigit = true := by
  simp only [hexGroup, Bool.and_eq_true, beq_iff_eq] at h
  exact h

/-- A valid hyphenated UUID string contains no `"--"` substring. -/
theorem uuid_no_containsDD (u : Str) (h : uuidParseOk u = true) :
    containsDD u = false := by
  unfold uuidParseOk at h
  split at h
  case h_2 => simp at h
  case h_1 a b c d e heq =>
    simp only [Bool.and_eq_true] at h
    obtain ⟨⟨⟨⟨ha, hb⟩, hc⟩, hd⟩, he⟩ := h
    obtain ⟨haL, haH⟩ := hexGroup_charcheck _ _ ha
    obtain ⟨hbL, hbH⟩ := hexGroup_charcheck _ _ hb
    obtain ⟨hcL, hcH⟩ := hexGroup_charcheck _ _ hc
    obtain ⟨hdL, hdH⟩ := hexGroup_charcheck _ _ hd
    obtain ⟨heL, heH⟩ := hexGroup_charcheck _ _ he
    have hbne : b ≠ [] := by intro h0; rw [h0] at hbL; simp at hbL
    have hcne : c ≠ [] := by intro h0; rw [h0] at hcL; simp at hcL
    have hdne : d ≠ [] := by intro h0; rw [h0] at hdL; simp at hdL
    have hene : e ≠ [] := by intro h0; rw [h0] at heL; simp at heL
    have hu : u = a ++ ('-' :: (b ++ ('-' :: (c ++ ('-' :: (d ++ ('-' :: (e ++ [])))))))) := by
      have hj := joinDash_splitDashAux u []
      rw [splitDash] at heq
      rw [heq] at hj
      simp only [List.nil_append] at hj
      rw [← hj]
      simp [joinDash_cons_cons, joinDash]
    rw [hu,
      containsDD_hex_append a haH,
      containsDD_dash_group b hbH hbne,
      containsDD_hex_append b hbH,
      containsDD_dash_group c hcH hcne,
      containsDD_hex_append c hcH,
      containsDD_dash_group d hdH hdne,
      containsDD_hex_append d hdH,
      containsDD_dash_group e heH hene,
      containsDD_hex_append e heH]
    rfl

/-! ## Claim C3 -/

/-- Claim C3 counterexample: the claim says an id with an empty kind
segment such as `"--<uuid>"` is invalid, but `is_valid_maec_id` accepts
it: splitting yields exactly two parts whose first is empty and whose
second is a valid UUID, and the code never checks the segments for
non-emptiness. -/
theorem c3_counterexample :
    is_valid_maec_id (("--550e8400-e29b-41d4-a716-446655440000").toList) = true ∧
    splitDD (("--550e8400-e29b-41d4-a716-446655440000").toList)
      = [[], ("550e8400-e29b-41d4-a716-446655440000").toList] := by
  constructor
  · rfl
  · rfl

/-- Claim C3 (amended): `is_valid_maec_id id` returns true if and only if
splitting `id` on `"--"` yields exactly two segments and the second parses
as a valid UUID; the segments are not required to be non-empty (an empty
kind segment is accepted; an empty second segment fails the UUID parse). -/
theorem c3_amended (id : Str) :
    is_valid_maec_id id = true ↔
      ∃ t u, id = t ++ '-' :: '-' :: u ∧ splitDD id = [t, u] ∧ uuidParseOk u = true := by
  constructor
  · intro h
    unfold is_valid_maec_id at h
    split at h
    case h_1 t u heq => exact ⟨t, u, eq_append_of_splitDD id t u heq, heq, h⟩
    case h_2 => exact absurd h (by simp)
  · rintro ⟨t, u, -, hsplit, hu⟩
    unfold is_valid_maec_id
    rw [hsplit]
    exact hu

/-! ## Claim C6 -/

/-- Claim C6 counterexample: the spec deems every kind string without a
`"--"` substring supported, but for the kind `"a-"` (no `"--"`, ending in
`'-'`) the generated id `"a---<uuid>"` fails validation and kind
extraction, because the separator scan finds `"--"` one character early. -/
theorem c6_counterexample :
    containsDD ("a-").toList = false ∧
    uuidParseOk (("550e8400-e29b-41d4-a716-446655440000").toList) = true ∧
    is_valid_maec_id
      (generate_maec_id (("a-").toList)
        (("550e8400-e29b-41d4-a716-446655440000").toList)) = false ∧
    extract_type_from_id
      (generate_maec_id (("a-").toList)
        (("550e8400-e29b-41d4-a716-446655440000").toList)) = none := by
  refine ⟨rfl, rfl, rfl, rfl⟩

/-- Claim C6 (amended): for every kind string that contains no `"--"` and
does not end in `'-'`, and every UUID in the hyphenated rendered form,
the generated id validates, kind extraction returns exactly the kind, and
the reference/kind check succeeds exactly for that kind. -/
theorem c6_amended (k u : Str) (hk : containsDD k = false) (hlast : k.getLast? ≠ some '-')
    (hu : uuidParseOk u = true) :
    is_valid_maec_id (generate_maec_id k u) = true ∧
    extract_type_from_id (generate_maec_id k u) = some k ∧
    ∀ expected, is_valid_ref_for_type (generate_maec_id k u) expected = true ↔ expected = k := by
  have hsplit : splitDD (generate_maec_id k u) = [k, u] := by
    rw [generate_maec_id, splitDD, splitDDAux_append k u hk hlast []]
    rw [splitDD, splitDDAux_of_noDD u (uuid_no_containsDD u hu) []]
    simp
  refine ⟨?_, ?_, ?_⟩
  · unfold is_valid_maec_id
    rw [hsplit]
    exact hu
  · unfold extract_type_from_id
    rw [hsplit]
    simp [hu]
  · intro expected
    unfold is_valid_ref_for_type extract_type_from_id
    rw [hsplit]
    simp only [hu, if_true, Option.map_some', Option.getD_some, beq_iff_eq]
    exact eq_comm

/-- Claim C6 witness: the generator and checks agree on the kind
`"package"` with a concrete UUID. -/
theorem c6_witness :
    is_valid_maec_id
      (generate_maec_id (("package").toList)
        (("550e8400-e29b-41d4-a716-446655440000").toList)) = true ∧
    extract_type_from_id
      (generate_maec_id (("package").toList)
        (("550e8400-e29b-41d4-a716-446655440000").toList)) = some (("package").toList) ∧
    is_valid_ref_for_type
      (generate_maec_id (("package").toList)
        (("550e8400-e29b-41d4-a716-446655440000").toList)) (("package").toList) = true := by
  have h := c6_amended (("package").toList) (("550e8400-e29b-41d4-a716-446655440000").toList)
    (by decide) (by decide) (by decide)
  exact ⟨h.1, h.2.1, (h.2.2 (("package").toList)).mpr rfl⟩

/-! ## Claim C7 -/

/-- Claim C7: `FieldDataBuilder::build` fails exactly when all three
fields are absent; adding a delivery vector guarantees success; and no
built `FieldData` is fully empty. -/
theorem c7_fielddata_build (b : FieldDataBuilder) :
    ((∃ e, b.build = Except.error e) ↔
      (b.delivery_vectors = none ∧ b.first_seen = none ∧ b.last_seen = none)) ∧
    (∀ v, ∃ fd, (b.add_delivery_vector v).build = Except.ok fd) ∧
    (∀ fd, b.build = Except.ok fd →
      ¬(fd.delivery_vectors = none ∧ fd.first_seen = none ∧ fd.last_seen = none)) := by
  by_cases hd : b.delivery_vectors = none <;>
    by_cases hf : b.first_seen = none <;>
      by_cases hl : b.last_seen = none <;>
        simp_all [FieldDataBuilder.build, FieldDataBuilder.add_delivery_vector]

/-- Claim C7 witness: the empty builder fails and
`add_delivery_vector("email")` makes it succeed. -/
theorem c7_witness :
    (∃ e, FieldDataBuilder.build {} = Except.error e) ∧
    (∃ fd, (FieldDataBuilder.add_delivery_vector {} (("email").toList)).build
      = Except.ok fd) := by
  refine ⟨((c7_fielddata_build {}).1).mpr ⟨rfl, rfl, rfl⟩, (c7_fielddata_build {}).2.1 (("email").toList)⟩

/-! ## Claim C8 -/

theorem le_getLastD_of_chain (x : Nat) (ts : List Nat)
    (h : List.Chain' (· ≤ ·) (x :: ts)) : x ≤ ts.getLastD x := by
  induction ts generalizing x with
  | nil => simp [List.getLastD]
  | cons t ts' ih =>
    rw [List.chain'_cons] at h
    calc x ≤ t := h.1
      _ ≤ ts'.getLastD t := ih t h.2
      _ = (t :: ts').getLastD x := (List.getLastD_cons x t ts').symm

/-- Claim C8: any sequence of `new_version` calls leaves `id`, `type`,
`created`, `schema_version`, `created_by_ref` and `custom_properties`
unchanged; `modified` ends up at the last clock reading (or unchanged when
no call is made); and with a monotone clock `modified` is non-decreasing
over the whole sequence. -/
theorem c8_new_version (c : CommonProperties) (ts : List Nat) :
    ((ts.foldl CommonProperties.new_version c).id = c.id ∧
     (ts.foldl CommonProperties.new_version c).type = c.type ∧
     (ts.foldl CommonProperties.new_version c).created = c.created ∧
     (ts.foldl CommonProperties.new_version c).schema_version = c.schema_version ∧
     (ts.foldl CommonProperties.new_version c).created_by_ref = c.created_by_ref ∧
     (ts.foldl CommonProperties.new_version c).custom_properties = c.custom_properties) ∧
    (ts.foldl CommonProperties.new_version c).modified = ts.getLastD c.modified ∧
    (List.Chain' (· ≤ ·) (c.modified :: ts) →
      c.modified ≤ (ts.foldl CommonProperties.new_version c).modified) := by
  have hmain : ∀ (ts : List Nat) (c : CommonProperties),
      ((ts.foldl CommonProperties.new_version c).id = c.id ∧
       (ts.foldl CommonProperties.new_version c).type = c.type ∧
       (ts.foldl CommonProperties.new_version c).created = c.created ∧
       (ts.foldl CommonProperties.new_version c).schema_version = c.schema_version ∧
       (ts.foldl CommonProperties.new_version c).created_by_ref = c.created_by_ref ∧
       (ts.foldl CommonProperties.new_version c).custom_properties = c.custom_properties) ∧
      (ts.foldl CommonProperties.new_version c).modified = ts.getLastD c.modified := by
    intro ts
    induction ts with
    | nil => intro c; simp [List.getLastD]
    | cons t ts' ih =>
      intro c
      have h := ih (c.new_version t)
      simp only [List.foldl_cons]
      refine ⟨h.1, ?_⟩
      rw [h.2, List.getLastD_cons]
      rfl
  refine ⟨(hmain ts c).1, (hmain ts c).2, ?_⟩
  intro hchain
  rw [(hmain ts c).2]
  exact le_getLastD_of_chain c.modified ts hchain

/-- Claim C8 witness: two `new_version` calls with clock readings 1 and 2
on a freshly constructed header. -/
theorem c8_witness :
    ([1, 2].foldl CommonProperties.new_version
      (CommonProperties.new (("malware-family").toList) none
        (("550e8400-e29b-41d4-a716-446655440000").toList) 0)).created = 0 ∧
    (CommonProperties.new (("malware-family").toList) none
        (("550e8400-e29b-41d4-a716-446655440000").toList) 0).modified ≤
      ([1, 2].foldl CommonProperties.new_version
        (CommonProperties.new (("malware-family").toList) none
          (("550e8400-e29b-41d4-a716-446655440000").toList) 0)).modified := by
  have h := c8_new_version
    (CommonProperties.new (("malware-family").toList) none
      (("550e8400-e29b-41d4-a716-446655440000").toList) 0) [1, 2]
  refine ⟨h.1.2.2.1.trans rfl, h.2.2 ?_⟩
  simp [CommonProperties.new, List.chain'_cons]

/-! ## Claim C4 -/

/-- Claim C4 counterexample: the claim includes `RelationshipBuilder` among
the builders that reject an invalid caller-supplied id, but
`RelationshipBuilder::build` runs no validation at all: with the malformed
id `"package-notauuid"` it succeeds and returns a finished record carrying
that id. -/
theorem c4_counterexample :
    is_valid_maec_id (("package-notauuid").toList) = false ∧
    RelationshipBuilder.build
      { id := some (("package-notauuid").toList)
        source_ref := some (("behavior--550e8400-e29b-41d4-a716-446655440000").toList)
        target_ref := some (("malware-family--550e8400-e29b-41d4-a716-446655440000").toList)
        relationship_type := some (("derived-from").toList) }
      (("650e8400-e29b-41d4-a716-446655440000").toList) 3
      = Except.ok
        { common :=
            { type := ("relationship").toList
              id := ("package-notauuid").toList
              schema_version := some (("5.0").toList)
              created := 3
              modified := 3
              created_by_ref := none
              custom_properties := [] }
          source_ref := ("behavior--550e8400-e29b-41d4-a716-446655440000").toList
          target_ref := ("malware-family--550e8400-e29b-41d4-a716-446655440000").toList
          relationship_type := ("derived-from").toList
          description := none } := by
  exact ⟨rfl, rfl⟩

/-- Claim C4 (amended): of the builders that accept a caller-supplied id,
`PackageBuilder`, `BehaviorBuilder` and `CollectionBuilder` do fail
`build()` when the id is invalid (for Package with an `InvalidId` error
when the schema version is left at its default); `RelationshipBuilder`
performs no id validation and returns a finished record. -/
theorem c4_amended (id : Str) (hid : is_valid_maec_id id = false) :
    (∀ (b : PackageBuilder) (uuid : Str) (now : Nat), b.id = some id →
      ∃ e, b.build uuid now = Except.error e) ∧
    (∀ (b : BehaviorBuilder) (uuid : Str) (now : Nat), b.id = some id →
      ∃ e, b.build uuid now = Except.error e) ∧
    (∀ (b : CollectionBuilder) (uuid : Str) (now : Nat), b.id = some id →
      ∃ e, b.build uuid now = Except.error e) ∧
    (∀ (b : PackageBuilder) (uuid : Str) (now : Nat), b.id = some id →
      b.schema_version = none → b.build uuid now = Except.error (.InvalidId id)) := by
  refine ⟨?_, ?_, ?_, ?_⟩
  · rintro ⟨bid, bver, bobjs, bobs, brels⟩ uuid now hb
    simp only at hb
    subst hb
    cases bver with
    | none =>
      exact ⟨.InvalidId id, by simp [PackageBuilder.build, Package.validate,
        CommonProperties.new, hid]⟩
    | some v =>
      by_cases hv : v = ['5', '.', '0']
      · subst hv
        exact ⟨.InvalidId id, by simp [PackageBuilder.build, Package.validate,
          CommonProperties.new, hid]⟩
      · exact ⟨.ValidationError (("schema_version must be 5.0").toList),
          by simp [PackageBuilder.build, Package.validate, CommonProperties.new, hv]⟩
  · rintro ⟨bid, bname, bdesc, bts, battr, bar, btr⟩ uuid now hb
    simp only at hb
    subst hb
    cases bname with
    | none => exact ⟨.MissingField (("name").toList), by simp [BehaviorBuilder.build]⟩
    | some nm =>
      exact ⟨.InvalidId id, by simp [BehaviorBuilder.build, Behavior.validate,
        CommonProperties.new, hid]⟩
  · rintro ⟨bid, bname, bdesc⟩ uuid now hb
    simp only at hb
    subst hb
    exact ⟨.InvalidId id, by simp [CollectionBuilder.build, Collection.validate,
      CommonProperties.new, hid]⟩
  · rintro ⟨bid, bver, bobjs, bobs, brels⟩ uuid now hb hv
    simp only at hb hv
    subst hb
    subst hv
    simp [PackageBuilder.build, Package.validate, CommonProperties.new, hid]

/-- Claim C4 witness: a `PackageBuilder` carrying the malformed id
`"package-notauuid"` fails with `InvalidId`. -/
theorem c4_witness :
    PackageBuilder.build { id := some (("package-notauuid").toList) }
      (("650e8400-e29b-41d4-a716-446655440000").toList) 0
      = Except.error (.InvalidId (("package-notauuid").toList)) := by
  exact (c4_amended (("package-notauuid").toList) (by decide)).2.2.2
    { id := some (("package-notauuid").toList) } _ 0 rfl rfl

/-! ## Claim C5 -/

/-- Claim C5 counterexample: the claim says `RelationshipBuilder::build`
validates `source_ref` and `target_ref` with `is_valid_maec_id` and fails
when either is invalid; in fact a build with the syntactically invalid
`source_ref = "not-an-id"` succeeds. -/
theorem c5_counterexample :
    is_valid_maec_id (("not-an-id").toList) = false ∧
    RelationshipBuilder.build
      { source_ref := some (("not-an-id").toList)
        target_ref := some (("malware-family--550e8400-e29b-41d4-a716-446655440000").toList)
        relationship_type := some (("derived-from").toList) }
      (("650e8400-e29b-41d4-a716-446655440000").toList) 3
      = Except.ok
        { common :=
            { type := ("relationship").toList
              id := ("relationship--650e8400-e29b-41d4-a716-446655440000").toList
              schema_version := some (("5.0").toList)
              created := 3
              modified := 3
              created_by_ref := none
              custom_properties := [] }
          source_ref := ("not-an-id").toList
          target_ref := ("malware-family--550e8400-e29b-41d4-a716-446655440000").toList
          relationship_type := ("derived-from").toList
          description := none } := by
  exact ⟨rfl, rfl⟩

/-- Claim C5 (amended): `RelationshipBuilder::build` checks only that
`source_ref`, `target_ref` and `relationship_type` are present; it
performs no syntactic identifier validation on the reference fields (and
no kind-prefix cross-check), succeeding with the given strings verbatim. -/
theorem c5_amended (b : RelationshipBuilder) (s t rt : Str) (uuid : Str) (now : Nat)
    (hs : b.source_ref = some s) (ht : b.target_ref = some t)
    (hrt : b.relationship_type = some rt) :
    ∃ r, b.build uuid now = Except.ok r ∧ r.source_ref = s ∧ r.target_ref = t ∧
      r.relationship_type = rt := by
  rcases b with ⟨bid, bs, bt, brt, bd⟩
  simp only at hs ht hrt
  subst hs
  subst ht
  subst hrt
  cases bid <;> exact ⟨_, rfl, rfl, rfl, rfl⟩

/-- Claim C5 witness: a relationship with one syntactically invalid
reference builds successfully. -/
theorem c5_witness :
    is_valid_maec_id (("not-a-valid-ref").toList) = false ∧
    ∃ r, RelationshipBuilder.build
        { source_ref := some (("not-a-valid-ref").toList)
          target_ref := some (("behavior--550e8400-e29b-41d4-a716-446655440000").toList)
          relationship_type := some (("variant-of").toList) }
        (("650e8400-e29b-41d4-a716-446655440000").toList) 0
        = Except.ok r ∧
      r.source_ref = ("not-a-valid-ref").toList ∧
      r.target_ref = ("behavior--550e8400-e29b-41d4-a716-446655440000").toList ∧
      r.relationship_type = ("variant-of").toList := by
  refine ⟨by decide, ?_⟩
  exact c5_amended
    { source_ref := some (("not-a-valid-ref").toList)
      target_ref := some (("behavior--550e8400-e29b-41d4-a716-446655440000").toList)
      relationship_type := some (("variant-of").toList) }
    _ _ _ _ 0 rfl rfl rfl

/-! ## Claim C9 -/

theorem filter_eq_filterMap_map {α β : Type} (f : α → Option β) (g : β → α)
    (tst : α → Bool) (h1 : ∀ a, tst a = (f a).isSome)
    (h2 : ∀ a b, f a = some b ↔ a = g b) (l : List α) :
    l.filter tst = (l.filterMap f).map g := by
  induction l with
  | nil => rfl
  | cons x xs ih =>
    cases hx : f x with
    | none =>
      have htx : tst x = false := by rw [h1, hx]; rfl
      simp [List.filter_cons, List.filterMap_cons, hx, htx, ih]
    | some b =>
      have hxy : x = g b := (h2 x b).mp hx
      have htx : tst x = true := by rw [h1, hx]; rfl
      simp only [List.filter_cons, List.filterMap_cons, hx, htx, if_pos, List.map_cons, ih]
      rw [← hxy]

theorem mem_filterMap_iff {α β : Type} (f : α → Option β) (g : β → α)
    (h2 : ∀ a b, f a = some b ↔ a = g b) (l : List α) (b : β) :
    b ∈ l.filterMap f ↔ g b ∈ l := by
  simp [List.mem_filterMap, h2]

/-- Claim C9: each filtered view of a Package returns exactly the elements
of the requested kind from `maec_objects`, in their original relative
order: filtering `maec_objects` by the kind discriminator is the same list
as the view re-wrapped in its variant, and membership in a view coincides
with membership of the wrapped element in `maec_objects`.  The views are
pure functions of the Package, which is left unmodified. -/
theorem c9_filtered_views (p : Package) :
    (p.maec_objects.filter MaecObjectType.isBehaviorKind
      = (p.behaviors).map MaecObjectType.Behavior ∧
     p.maec_objects.filter MaecObjectType.isMalwareFamilyKind
      = (p.malware_families).map MaecObjectType.MalwareFamily ∧
     p.maec_objects.filter MaecObjectType.isMalwareInstanceKind
      = (p.malware_instances).map MaecObjectType.MalwareInstance ∧
     p.maec_objects.filter MaecObjectType.isMalwareActionKind
      = (p.malware_actions).map MaecObjectType.MalwareAction) ∧
    ((∀ b, b ∈ p.behaviors ↔ MaecObjectType.Behavior b ∈ p.maec_objects) ∧
     (∀ f, f ∈ p.malware_families ↔ MaecObjectType.MalwareFamily f ∈ p.maec_objects) ∧
     (∀ i, i ∈ p.malware_instances ↔ MaecObjectType.MalwareInstance i ∈ p.maec_objects) ∧
     (∀ a, a ∈ p.malware_actions ↔ MaecObjectType.MalwareAction a ∈ p.maec_objects)) := by
  have hb2 : ∀ (a : MaecObjectType) (b : Behavior),
      (match a with | .Behavior x => some x | _ => none) = some b ↔
        a = MaecObjectType.Behavior b := by
    intro a b; cases a <;> simp
  have hf2 : ∀ (a : MaecObjectType) (b : MalwareFamily),
      (match a with | .MalwareFamily x => some x | _ => none) = some b ↔
        a = MaecObjectType.MalwareFamily b := by
    intro a b; cases a <;> simp
  have hi2 : ∀ (a : MaecObjectType) (b : MalwareInstance),
      (match a with | .MalwareInstance x => some x | _ => none) = some b ↔
        a = MaecObjectType.MalwareInstance b := by
    intro a b; cases a <;> simp
  have ha2 : ∀ (a : MaecObjectType) (b : MalwareAction),
      (match a with | .MalwareAction x => some x | _ => none) = some b ↔
        a = MaecObjectType.MalwareAction b := by
    intro a b; cases a <;> simp
  refine ⟨⟨?_, ?_, ?_, ?_⟩, ?_, ?_, ?_, ?_⟩
  · exact filter_eq_filterMap_map _ _ _
      (by intro a; cases a <;> rfl) hb2 p.maec_objects
  · exact filter_eq_filterMap_map _ _ _
      (by intro a; cases a <;> rfl) hf2 p.maec_objects
  · exact filter_eq_filterMap_map _ _ _
      (by intro a; cases a <;> rfl) hi2 p.maec_objects
  · exact filter_eq_filterMap_map _ _ _
      (by intro a; cases a <;> rfl) ha2 p.maec_objects
  · intro b; exact mem_filterMap_iff _ _ hb2 p.maec_objects b
  · intro f; exact mem_filterMap_iff _ _ hf2 p.maec_objects f
  · intro i; exact mem_filterMap_iff _ _ hi2 p.maec_objects i
  · intro a; exact mem_filterMap_iff _ _ ha2 p.maec_objects a

/-! ## Claim C2 -/

/-- Claim C2: the untagged element decoder attempts the candidate kinds in
the fixed priority order Behavior, Collection, MalwareAction,
MalwareFamily, MalwareInstance, and returns the first structural match:
whenever the candidate at position `i` matches, the decoder returns a
value whose position is at most `i`, that value is exactly what its own
candidate decoder produces, and every earlier candidate fails. -/
theorem c2_untagged_priority (now : Nat) (j : Json) (i : Nat) (oi : MaecObjectType)
    (h : decodeKind now i j = some oi) :
    ∃ o, decodeMaecObjectType now j = some o ∧
      decodeKind now (kindIndex o) j = some o ∧
      kindIndex o ≤ i ∧
      ∀ i', i' < kindIndex o → decodeKind now i' j = none := by
  cases hb : decodeBehavior now j with
  | some b =>
    refine ⟨.Behavior b, ?_, ?_, ?_, ?_⟩
    · simp [decodeMaecObjectType, hb]
    · simp [decodeKind, kindIndex, hb]
    · simp [kindIndex]
    · intro i' hi'
      simp [kindIndex] at hi'
  | none =>
    cases hc : decodeCollection now j with
    | some c =>
      refine ⟨.Collection c, ?_, ?_, ?_, ?_⟩
      · simp [decodeMaecObjectType, hb, hc]
      · simp [decodeKind, kindIndex, hc]
      · rcases i with _ | n
        · simp [decodeKind, hb] at h
        · simp [kindIndex]
      · intro i' hi'
        simp only [kindIndex] at hi'
        interval_cases i'
        simp [decodeKind, hb]
    | none =>
      cases ha : decodeMalwareAction now j with
      | some a =>
        refine ⟨.MalwareAction a, ?_, ?_, ?_, ?_⟩
        · simp [decodeMaecObjectType, hb, hc, ha]
        · simp [decodeKind, kindIndex, ha]
        · rcases i with _ | _ | n
          · simp [decodeKind, hb] at h
          · simp [decodeKind, hc] at h
          · simp [kindIndex]
        · intro i' hi'
          simp only [kindIndex] at hi'
          interval_cases i'
          · simp [decodeKind, hb]
          · simp [decodeKind, hc]
      | none =>
        cases hf : decodeMalwareFamily now j with
        | some f =>
          refine ⟨.MalwareFamily f, ?_, ?_, ?_, ?_⟩
          · simp [decodeMaecObjectType, hb, hc, ha, hf]
          · simp [decodeKind, kindIndex, hf]
          · rcases i with _ | _ | _ | n
            · simp [decodeKind, hb] at h
            · simp [decodeKind, hc] at h
            · simp [decodeKind, ha] at h
            · simp [kindIndex]
          · intro i' hi'
            simp only [kindIndex] at hi'
            interval_cases i'
            · simp [decodeKind, hb]
            · simp [decodeKind, hc]
            · simp [decodeKind, ha]
        | none =>
          cases hi : decodeMalwareInstance now j with
          | some inst =>
            refine ⟨.MalwareInstance inst, ?_, ?_, ?_, ?_⟩
            · simp [decodeMaecObjectType, hb, hc, ha, hf, hi]
            · simp [decodeKind, kindIndex, hi]
            · rcases i with _ | _ | _ | _ | n
              · simp [decodeKind, hb] at h
              · simp [decodeKind, hc] at h
              · simp [decodeKind, ha] at h
              · simp [decodeKind, hf] at h
              · simp [kindIndex]
            · intro i' hi'
              simp only [kindIndex] at hi'
              interval_cases i'
              · simp [decodeKind, hb]
              · simp [decodeKind, hc]
              · simp [decodeKind, ha]
              · simp [decodeKind, hf]
          | none =>
            exfalso
            rcases i with _ | _ | _ | _ | _ | n <;>
              simp [decodeKind, hb, hc, ha, hf, hi] at h

/-- Claim C2 witness: a concrete wire value matched by both the Behavior
and the Collection decoders resolves to the Behavior reading, the earlier
kind in the priority order. -/
theorem c2_witness :
    decodeKind 0 0 c2WireValue = some (.Behavior c2AsBehavior) ∧
    decodeKind 0 1 c2WireValue = some (.Collection c2AsCollection) ∧
    (∃ o, decodeMaecObjectType 0 c2WireValue = some o ∧ kindIndex o ≤ 1) ∧
    decodeMaecObjectType 0 c2WireValue = some (.Behavior c2AsBehavior) := by
  refine ⟨rfl, rfl, ?_, rfl⟩
  obtain ⟨o, h1, h2, h3, h4⟩ :=
    c2_untagged_priority 0 c2WireValue 1 (.Collection c2AsCollection) rfl
  exact ⟨o, h1, h3⟩

/-! ## Claim C10 -/

/-- Claim C10: decoding performs no invariant validation.  The concrete
document `c10WireValue`, whose `type` is `"widget"`, deserializes
successfully into a `Package` on which `validate()` returns a
`ValidationError`. -/
theorem c10_decode_without_validation :
    decodePackage 0 c10WireValue = some c10Package ∧
    c10Package.validate
      = Except.error (.ValidationError (("type must be package, got widget").toList)) := by
  exact ⟨rfl, rfl⟩

/-! ## Claim C1 -/

theorem decodeArr_map {α : Type} (f : Json → Option α) (e : α → Json) (l : List α)
    (h : ∀ x ∈ l, f (e x) = some x) : decodeArr f (l.map e) = some l := by
  induction l with
  | nil => rfl
  | cons x xs ih =>
    simp only [List.map_cons, decodeArr, h x (by simp)]
    rw [ih (fun y hy => h y (by simp [hy]))]
    rfl

/-- Round trip of the encoded form of a builder-produced package: header
of kind `"package"`, schema version 5.0, empty extension map, no
observables, no relationships. -/
theorem decodePackage_encode_canonical (nowD : Nat) (idp : Str)
    (objs : List MaecObjectType) (cr md : Nat)
    (helems : ∀ o ∈ objs, decodeMaecObjectType nowD (encodeMaecObjectType o) = some o) :
    decodePackage nowD (encodePackage
      { common :=
          { type := ("package").toList
            id := idp
            schema_version := some (("5.0").toList)
            created := cr
            modified := md
            created_by_ref := none
            custom_properties := [] }
        maec_objects := objs
        observable_objects := none
        relationships := [] })
      = some
        { common :=
            { type := ("package").toList
              id := idp
              schema_version := some (("5.0").toList)
              created := cr
              modified := md
              created_by_ref := none
              custom_properties := [] }
          maec_objects := objs
          observable_objects := none
          relationships := [] } := by
  simp [encodePackage, encodeCommonProps, encodeOptStr, encodeOptTs, encodeOptMap,
    encodeVecSkipEmpty, decodePackage, lookupField, reqStrField, optStrField, tsField,
    verField, optMapField, decodeCommonProps, commonKeys, packageKeys, removeFields,
    List.filter, decodeArr_map _ _ _ helems]

theorem validate_ok_inv (p : Package) (u : Unit) (h : p.validate = Except.ok u) :
    p.common.type = ("package").toList ∧
    p.common.schema_version = some (("5.0").toList) ∧
    is_valid_maec_id p.common.id = true := by
  unfold Package.validate at h
  split_ifs at h with h1 h2 h3
  exact ⟨not_ne_iff.mp h1, not_ne_iff.mp h2, h3⟩

/-- Claim C1 (amended): for every package built successfully from a
builder (whose `observable_objects` and `relationships` fields are at
their defaults, as the Rust builder offers no setters for them), encoding
then decoding yields the package back, provided each contained element's
encoding re-resolves through the untagged decoder to that element itself.
The proviso does not hold in general (see the counterexample: a Collection
named by a behavior-vocabulary string re-resolves as a Behavior). -/
theorem c1_roundtrip_amended (b : PackageBuilder) (uuid : Str) (now nowD : Nat) (p : Package)
    (hobs : b.observable_objects = none) (hrels : b.relationships = [])
    (hbuild : b.build uuid now = Except.ok p)
    (helems : ∀ o ∈ p.maec_objects,
      decodeMaecObjectType nowD (encodeMaecObjectType o) = some o) :
    decodePackage nowD (encodePackage p) = some p := by
  rcases b with ⟨bid, bver, bobjs, bobs, brels⟩
  simp only at hobs hrels
  subst hobs
  subst hrels
  cases bid with
  | none =>
    cases bver with
    | none =>
      simp only [PackageBuilder.build, CommonProperties.new] at hbuild
      split at hbuild
      · exact absurd hbuild (by simp)
      · rename_i u heq
        cases hbuild
        exact decodePackage_encode_canonical nowD _ bobjs now now helems
    | some v =>
      simp only [PackageBuilder.build, CommonProperties.new] at hbuild
      split at hbuild
      · exact absurd hbuild (by simp)
      · rename_i u heq
        cases hbuild
        obtain ⟨hty, hver, hid⟩ := validate_ok_inv _ u heq
        have hv2 : some v = some (("5.0").toList) := hver
        cases hv2
        exact decodePackage_encode_canonical nowD _ bobjs now now helems
  | some i =>
    cases bver with
    | none =>
      simp only [PackageBuilder.build, CommonProperties.new] at hbuild
      split at hbuild
      · exact absurd hbuild (by simp)
      · rename_i u heq
        cases hbuild
        exact decodePackage_encode_canonical nowD _ bobjs now now helems
    | some v =>
      simp only [PackageBuilder.build, CommonProperties.new] at hbuild
      split at hbuild
      · exact absurd hbuild (by simp)
      · rename_i u heq
        cases hbuild
        obtain ⟨hty, hver, hid⟩ := validate_ok_inv _ u heq
        have hv2 : some v = some (("5.0").toList) := hver
        cases hv2
        exact decodePackage_encode_canonical nowD _ bobjs now now helems

/-- Claim C1 counterexample: a successfully built package (a Collection
named `"check-for-payload"`, added by `add_object`) does not survive the
round trip: the collection's encoding is matched by the Behavior decoder,
which is tried first, so decoding returns a different package. -/
theorem c1_counterexample :
    CollectionBuilder.build { name := some (("check-for-payload").toList) }
      (("111e8400-e29b-41d4-a716-446655440000").toList) 3 = Except.ok c1CexCollection ∧
    c1CexBuilder.build (("222e8400-e29b-41d4-a716-446655440000").toList) 3
      = Except.ok c1CexPackage ∧
    decodePackage 3 (encodePackage c1CexPackage) = some c1CexDecoded ∧
    c1CexDecoded ≠ c1CexPackage := by
  refine ⟨rfl, rfl, rfl, ?_⟩
  simp [c1CexDecoded, c1CexPackage, c1CexCollection]

/-- Claim C1 witness: a package holding a Behavior and an unnamed
Collection round-trips exactly. -/
theorem c1_witness :
    c1WitBuilder.build (("555e8400-e29b-41d4-a716-446655440000").toList) 5
      = Except.ok c1WitPackage ∧
    decodePackage 9 (encodePackage c1WitPackage) = some c1WitPackage := by
  refine ⟨rfl, ?_⟩
  refine c1_roundtrip_amended c1WitBuilder
    (("555e8400-e29b-41d4-a716-446655440000").toList) 5 9 c1WitPackage rfl rfl rfl ?_
  intro o ho
  simp only [c1WitPackage, List.mem_cons, List.not_mem_nil, or_false] at ho
  rcases ho with rfl | rfl
  · rfl
  · rfl

/-- Claim C3 witness: the amended characterization evaluated at a
well-formed identifier. -/
theorem c3_witness :
    is_valid_maec_id
        (("malware-family--550e8400-e29b-41d4-a716-446655440000").toList) = true ↔
      ∃ t u, (("malware-family--550e8400-e29b-41d4-a716-446655440000").toList)
          = t ++ '-' :: '-' :: u ∧
        splitDD (("malware-family--550e8400-e29b-41d4-a716-446655440000").toList) = [t, u] ∧
        uuidParseOk u = true :=
  c3_amended (("malware-family--550e8400-e29b-41d4-a716-446655440000").toList)

/-- Claim C9 witness: the filter characterization of the behaviors view at
a concrete package. -/
theorem c9_witness :
    c1WitPackage.maec_objects.filter MaecObjectType.isBehaviorKind
      = (c1WitPackage.behaviors).map MaecObjectType.Behavior :=
  (c9_filtered_views c1WitPackage).1.1

end Maec
